import Mathlib

/-!
Verification of the FIRE calculator (`fire-calculator.py`).

The script's core is a small set of pure computations over the sidebar
inputs: annualizing six expense categories, a cost-weighted blended
inflation rate, a FIRE-number formula, a future-expense compounding
helper, and a year-by-year projection loop.  We embed those computations
over `ℚ` (the script uses Python floats; the arithmetic structure is
identical) and prove the specified properties.

Source line references are to `fire-calculator.py`.
-/

namespace Fire

/-- The sidebar inputs (lines 18-59).  Ages are integers; every other
input is a numeric scalar, embedded as `ℚ`. -/
structure Config where
  current_age : ℕ
  retirement_age : ℕ
  current_savings : ℚ
  monthly_income : ℚ
  savings_rate : ℚ
  annual_investment_return : ℚ
  monthly_expense : ℚ
  expense_inflation : ℚ
  trips_per_year : ℚ
  trip_budget : ℚ
  trip_inflation : ℚ
  car_upgrade_years : ℚ
  car_cost : ℚ
  car_inflation : ℚ
  gadget_upgrade_years : ℚ
  gadget_cost : ℚ
  gadget_inflation : ℚ
  num_dependents : ℚ
  dependent_cost : ℚ
  dependent_inflation : ℚ
  misc_monthly : ℚ
  misc_inflation : ℚ
  swr : ℚ

/-- Line 20: `years_until_retirement = retirement_age - current_age`.
The sidebar enforces `retirement_age ≥ current_age` (line 19), so the
truncated `ℕ` subtraction agrees with the script. -/
def years_until_retirement (c : Config) : ℕ :=
  c.retirement_age - c.current_age

/-- Line 62: `annual_expense = monthly_expense * 12`. -/
def annual_expense (c : Config) : ℚ := c.monthly_expense * 12

/-- Line 63: `annual_trips = trips_per_year * trip_budget`. -/
def annual_trips (c : Config) : ℚ := c.trips_per_year * c.trip_budget

/-- Line 64: `car_annual = car_cost / car_upgrade_years` (the sidebar
enforces `car_upgrade_years ≥ 1`, line 40). -/
def car_annual (c : Config) : ℚ := c.car_cost / c.car_upgrade_years

/-- Line 65: `gadget_annual = gadget_cost / gadget_upgrade_years` (the
sidebar enforces `gadget_upgrade_years ≥ 1`, line 45). -/
def gadget_annual (c : Config) : ℚ := c.gadget_cost / c.gadget_upgrade_years

/-- Line 66: `dependent_annual = num_dependents * dependent_cost`. -/
def dependent_annual (c : Config) : ℚ := c.num_dependents * c.dependent_cost

/-- Line 67: `misc_annual = misc_monthly * 12`. -/
def misc_annual (c : Config) : ℚ := c.misc_monthly * 12

/-- Line 70: `total_annual_cost`, the sum of the six annualized
category amounts. -/
def total_annual_cost (c : Config) : ℚ :=
  annual_expense c + annual_trips c + car_annual c + gadget_annual c +
    dependent_annual c + misc_annual c

/-- Lines 72-82: the cost-weighted blended inflation rate, with the
fixed default 4 when `total_annual_cost` is zero. -/
def weighted_inflation (c : Config) : ℚ :=
  if 0 < total_annual_cost c then
    (annual_expense c * c.expense_inflation +
     annual_trips c * c.trip_inflation +
     car_annual c * c.car_inflation +
     gadget_annual c * c.gadget_inflation +
     dependent_annual c * c.dependent_inflation +
     misc_annual c * c.misc_inflation) / total_annual_cost c
  else 4

/-- Lines 85-86: `calculate_fire_number(annual_expenses, swr) =
annual_expenses * (100 / swr)`.  In Python the division raises
`ZeroDivisionError` when `swr == 0`; that fallible behaviour is modelled
by `calculate_fire_number_checked` below, and this total function agrees
with the script whenever `swr ≠ 0`. -/
def calculate_fire_number (annual_expenses swr : ℚ) : ℚ :=
  annual_expenses * (100 / swr)

/-- The error raised by the script's arithmetic: `invalidParameter`
models the `ZeroDivisionError` that Python raises for `100 / swr` at
`swr = 0` — the spec's `InvalidParameter` domain error for an invalid
safe-withdrawal rate. -/
inductive CalcError where
  | invalidParameter
deriving DecidableEq

/-- Lines 85-86 with Python's division-by-zero behaviour made explicit:
`100 / swr` raises when `swr = 0`, otherwise the function returns
`annual_expenses * (100 / swr)`. -/
def calculate_fire_number_checked (annual_expenses swr : ℚ) : Except CalcError ℚ :=
  if swr = 0 then Except.error CalcError.invalidParameter
  else Except.ok (calculate_fire_number annual_expenses swr)

/-- Lines 88-96: `calculate_future_expenses(years)` compounds each of
the six categories by its own inflation rate and sums. -/
def calculate_future_expenses (c : Config) (years : ℕ) : ℚ :=
  annual_expense c * (1 + c.expense_inflation / 100) ^ years +
  annual_trips c * (1 + c.trip_inflation / 100) ^ years +
  car_annual c * (1 + c.car_inflation / 100) ^ years +
  gadget_annual c * (1 + c.gadget_inflation / 100) ^ years +
  dependent_annual c * (1 + c.dependent_inflation / 100) ^ years +
  misc_annual c * (1 + c.misc_inflation / 100) ^ years

/-- Line 99: expenses compounded to the retirement year. -/
def retirement_annual_expenses (c : Config) : ℚ :=
  calculate_future_expenses c (years_until_retirement c)

/-- Line 100: the headline FIRE number displayed by the script. -/
def fire_number (c : Config) : ℚ :=
  calculate_fire_number (retirement_annual_expenses c) c.swr

/-- Lines 157-158: `annual_saving = (monthly_income * (savings_rate / 100)) * 12`
inside `calculate_fire_projection`. -/
def annual_saving (c : Config) : ℚ :=
  (c.monthly_income * (c.savings_rate / 100)) * 12

/-- The four lists the projection loop (lines 160-179) accumulates. -/
structure LoopState where
  savings : List ℚ
  annual_expenses : List ℚ
  fire_numbers : List ℚ
  fire_achieved : List Bool

/-- The projection loop of `calculate_fire_projection`, lines 163-179:
the state after iteration `year` of the `for year in range(1, N+1)`
loop (state `0` is the initial lists of lines 163-166, with
`fire_achieved` hard-initialized to `[False]`).  `savings[-1]` becomes
`getLastD 0` (the lists are never empty, so the default is never used). -/
def projLoop (c : Config) : ℕ → LoopState
  | 0 =>
    ⟨[c.current_savings], [total_annual_cost c],
     [calculate_fire_number (total_annual_cost c) c.swr], [false]⟩
  | year + 1 =>
    let s := projLoop c year
    let new_savings :=
      s.savings.getLastD 0 * (1 + c.annual_investment_return / 100) + annual_saving c
    let new_expense := calculate_future_expenses c (year + 1)
    let new_fire_number := calculate_fire_number new_expense c.swr
    ⟨s.savings ++ [new_savings], s.annual_expenses ++ [new_expense],
     s.fire_numbers ++ [new_fire_number],
     s.fire_achieved ++ [decide (new_fire_number ≤ new_savings)]⟩

/-- Lines 182-184: `fire_year = fire_achieved.index(True)` when
`True in fire_achieved`, else `None`. -/
def indexOfTrue : List Bool → Option ℕ
  | [] => Option.none
  | b :: bs => if b then Option.some 0 else (indexOfTrue bs).map (· + 1)

/-- The dictionary returned by `calculate_fire_projection`
(lines 186-194). -/
structure Projection where
  age : List ℕ
  year : List ℕ
  savings : List ℚ
  annual_expenses : List ℚ
  fire_numbers : List ℚ
  fire_achieved : List Bool
  fire_year : Option ℕ

/-- Lines 156-194: `calculate_fire_projection()`. -/
def calculate_fire_projection (c : Config) : Projection :=
  let years := List.range (years_until_retirement c + 1)
  let s := projLoop c (years_until_retirement c)
  { age := years.map (fun y => c.current_age + y)
    year := years
    savings := s.savings
    annual_expenses := s.annual_expenses
    fire_numbers := s.fire_numbers
    fire_achieved := s.fire_achieved
    fire_year := indexOfTrue s.fire_achieved }

/-- What the script computes up to and including the projection, in
program order: the headline `fire_number` (line 100) is computed before
`calculate_fire_projection()` runs (line 197), so a `ZeroDivisionError`
at line 100 aborts the script with no projection produced.  (Every FIRE
number inside the projection divides by the same `swr`, so an `swr`
that passes line 100 also succeeds throughout the loop.) -/
structure ScriptOutput where
  fire_number : ℚ
  projection : Projection

def script_run (c : Config) : Except CalcError ScriptOutput := do
  let fn ← calculate_fire_number_checked (retirement_annual_expenses c) c.swr
  Except.ok ⟨fn, calculate_fire_projection c⟩

/-- Line 305: `annual_saving = monthly_income * 12 * (savings_rate / 100)`
(the key-metrics recomputation, a different expression order from
lines 157-158). -/
def annual_saving_metric (c : Config) : ℚ :=
  c.monthly_income * 12 * (c.savings_rate / 100)

/-- Line 306: `years_to_save = 0 if annual_saving <= 0 else
(fire_number - current_savings) / (annual_saving * (1 + annual_investment_return/100))`. -/
def years_to_save (c : Config) : ℚ :=
  if annual_saving_metric c ≤ 0 then 0
  else (fire_number c - c.current_savings) /
    (annual_saving_metric c * (1 + c.annual_investment_return / 100))

/-- Line 306 with Python's division-by-zero behaviour made explicit:
when the guard selects the division, a zero denominator would raise. -/
def years_to_save_checked (c : Config) : Except CalcError ℚ :=
  if annual_saving_metric c ≤ 0 then Except.ok 0
  else if annual_saving_metric c * (1 + c.annual_investment_return / 100) = 0 then
    Except.error CalcError.invalidParameter
  else Except.ok ((fire_number c - c.current_savings) /
    (annual_saving_metric c * (1 + c.annual_investment_return / 100)))

/-- The six expense categories as (annualized amount, inflation rate)
pairs, in the script's summation order (lines 62-70, 88-96). -/
def categories (c : Config) : List (ℚ × ℚ) :=
  [(annual_expense c, c.expense_inflation),
   (annual_trips c, c.trip_inflation),
   (car_annual c, c.car_inflation),
   (gadget_annual c, c.gadget_inflation),
   (dependent_annual c, c.dependent_inflation),
   (misc_annual c, c.misc_inflation)]

/-- Spec formula (§4.2): `futureAnnualCost(categories, t) = Σ ai·(1+ri/100)^t`,
each category compounded by its own rate independently. -/
def futureAnnualCost (cats : List (ℚ × ℚ)) (t : ℕ) : ℚ :=
  (cats.map (fun p => p.1 * (1 + p.2 / 100) ^ t)).sum

/-! ### Closed forms for the projection loop -/

/-- Savings at offset `y`: the linear recurrence of line 170. -/
def savingsAt (c : Config) : ℕ → ℚ
  | 0 => c.current_savings
  | y + 1 => savingsAt c y * (1 + c.annual_investment_return / 100) + annual_saving c

/-- Annual expenses at offset `y` as the loop records them
(line 164 for offset 0, line 171 for later offsets). -/
def expenseAt (c : Config) : ℕ → ℚ
  | 0 => total_annual_cost c
  | y + 1 => calculate_future_expenses c (y + 1)

/-- Required FIRE number at offset `y` (lines 165, 172). -/
def fireNumberAt (c : Config) (y : ℕ) : ℚ :=
  calculate_fire_number (expenseAt c y) c.swr

/-- The `fire_achieved` flag at offset `y`: hard-coded `False` at
offset 0 (line 166), the comparison of line 173 afterwards. -/
def fireAchievedAt (c : Config) : ℕ → Bool
  | 0 => false
  | y + 1 => decide (fireNumberAt c (y + 1) ≤ savingsAt c (y + 1))

theorem getLastD_map_range {α : Type} (f : ℕ → α) (n : ℕ) (d : α) :
    ((List.range (n + 1)).map f).getLastD d = f n := by
  rw [List.range_succ, List.map_append]
  exact List.getLastD_concat _ _ _

/-- After `n` iterations the loop state is the four closed-form
sequences tabulated on offsets `0..n`. -/
theorem projLoop_eq (c : Config) (n : ℕ) :
    projLoop c n =
      ⟨(List.range (n + 1)).map (savingsAt c),
       (List.range (n + 1)).map (expenseAt c),
       (List.range (n + 1)).map (fireNumberAt c),
       (List.range (n + 1)).map (fireAchievedAt c)⟩ := by
  induction n with
  | zero =>
    simp [projLoop, savingsAt, expenseAt, fireNumberAt, fireAchievedAt, List.range_succ]
  | succ n ih =>
    rw [projLoop, ih]
    simp only [getLastD_map_range]
    have hr : List.range (n + 1 + 1) = List.range (n + 1) ++ [n + 1] :=
      List.range_succ (n + 1)
    congr 1 <;> rw [hr, List.map_append] <;>
      simp [savingsAt, expenseAt, fireNumberAt, fireAchievedAt]

theorem getD_map_range {α : Type} (f : ℕ → α) {n y : ℕ} (d : α) (h : y < n) :
    ((List.range n).map f).getD y d = f y := by
  rw [List.getD_eq_getElem?_getD, List.getElem?_map, List.getElem?_range h]
  rfl

theorem projection_savings (c : Config) :
    (calculate_fire_projection c).savings =
      (List.range (years_until_retirement c + 1)).map (savingsAt c) := by
  simp [calculate_fire_projection, projLoop_eq]

theorem projection_expenses (c : Config) :
    (calculate_fire_projection c).annual_expenses =
      (List.range (years_until_retirement c + 1)).map (expenseAt c) := by
  simp [calculate_fire_projection, projLoop_eq]

theorem projection_fire_numbers (c : Config) :
    (calculate_fire_projection c).fire_numbers =
      (List.range (years_until_retirement c + 1)).map (fireNumberAt c) := by
  simp [calculate_fire_projection, projLoop_eq]

theorem projection_fire_achieved (c : Config) :
    (calculate_fire_projection c).fire_achieved =
      (List.range (years_until_retirement c + 1)).map (fireAchievedAt c) := by
  simp [calculate_fire_projection, projLoop_eq]

theorem projection_year (c : Config) :
    (calculate_fire_projection c).year =
      List.range (years_until_retirement c + 1) := rfl

theorem projection_fire_year (c : Config) :
    (calculate_fire_projection c).fire_year =
      indexOfTrue (calculate_fire_projection c).fire_achieved := rfl

/-- Compounding by zero elapsed years leaves every category at its
current amount, so `calculate_future_expenses c 0` is exactly
`total_annual_cost c`. -/
theorem future_expenses_zero (c : Config) :
    calculate_future_expenses c 0 = total_annual_cost c := by
  simp [calculate_future_expenses, total_annual_cost]

theorem indexOfTrue_eq_none_iff (l : List Bool) :
    indexOfTrue l = Option.none ↔ true ∉ l := by
  induction l with
  | nil => simp [indexOfTrue]
  | cons b bs ih => cases b <;> simp [indexOfTrue, ih]

theorem indexOfTrue_spec {l : List Bool} {k : ℕ}
    (h : indexOfTrue l = Option.some k) :
    l[k]? = Option.some true ∧ ∀ j, j < k → l[j]? = Option.some false := by
  induction l generalizing k with
  | nil => simp [indexOfTrue] at h
  | cons b bs ih =>
    cases b with
    | true =>
      simp only [indexOfTrue, if_true] at h
      have hk : k = 0 := by
        cases h
        rfl
      subst hk
      exact ⟨by simp, fun j hj => absurd hj (Nat.not_lt_zero j)⟩
    | false =>
      simp only [indexOfTrue, Bool.false_eq_true, if_false, Option.map_eq_some'] at h
      obtain ⟨k', hk', hkk⟩ := h
      subst hkk
      obtain ⟨h1, h2⟩ := ih hk'
      refine ⟨by simpa using h1, ?_⟩
      intro j hj
      cases j with
      | zero => simp
      | succ j => simpa using h2 j (by omega)

/-! ### Concrete configurations used as test inputs -/

/-- A config with a one-year horizon on which FIRE is achieved at
offset 1: tiny expenses (12/year), zero starting savings, contribution
480/year. -/
def cfgA : Config :=
  { current_age := 28, retirement_age := 29, current_savings := 0,
    monthly_income := 100, savings_rate := 40, annual_investment_return := 7,
    monthly_expense := 1, expense_inflation := 4,
    trips_per_year := 0, trip_budget := 0, trip_inflation := 4,
    car_upgrade_years := 7, car_cost := 0, car_inflation := 4,
    gadget_upgrade_years := 7, gadget_cost := 0, gadget_inflation := 4,
    num_dependents := 0, dependent_cost := 0, dependent_inflation := 4,
    misc_monthly := 0, misc_inflation := 4, swr := 4 }

/-- A config with two equal-weight categories at unequal rates (2% and
6%): the blended rate is 4%, and independent compounding diverges from
blended compounding at two elapsed years. -/
def cfg2 : Config :=
  { current_age := 28, retirement_age := 30, current_savings := 0,
    monthly_income := 0, savings_rate := 40, annual_investment_return := 7,
    monthly_expense := 100, expense_inflation := 2,
    trips_per_year := 0, trip_budget := 0, trip_inflation := 4,
    car_upgrade_years := 7, car_cost := 0, car_inflation := 4,
    gadget_upgrade_years := 7, gadget_cost := 0, gadget_inflation := 4,
    num_dependents := 0, dependent_cost := 0, dependent_inflation := 4,
    misc_monthly := 100, misc_inflation := 6, swr := 4 }

/-- A zero-horizon config whose starting savings (1,000,000) vastly
exceed the offset-0 FIRE number (300). -/
def cfg3 : Config :=
  { current_age := 45, retirement_age := 45, current_savings := 1000000,
    monthly_income := 100, savings_rate := 40, annual_investment_return := 7,
    monthly_expense := 1, expense_inflation := 4,
    trips_per_year := 0, trip_budget := 0, trip_inflation := 4,
    car_upgrade_years := 7, car_cost := 0, car_inflation := 4,
    gadget_upgrade_years := 7, gadget_cost := 0, gadget_inflation := 4,
    num_dependents := 0, dependent_cost := 0, dependent_inflation := 4,
    misc_monthly := 0, misc_inflation := 4, swr := 4 }

/-- `cfgA` with the safe-withdrawal rate forced to zero. -/
def cfg7 : Config := { cfgA with swr := 0 }

theorem cfgA_years : years_until_retirement cfgA = 1 := rfl

theorem cfgA_fire_achieved :
    (calculate_fire_projection cfgA).fire_achieved = [false, true] := by
  rw [projection_fire_achieved, cfgA_years]
  have h1 : fireAchievedAt cfgA 1 = true := by
    rw [fireAchievedAt, decide_eq_true_eq]
    norm_num [fireNumberAt, savingsAt, expenseAt, calculate_fire_number,
      calculate_future_expenses, annual_saving, annual_expense, annual_trips,
      car_annual, gadget_annual, dependent_annual, misc_annual, cfgA]
  have h0 : fireAchievedAt cfgA 0 = false := rfl
  simp [List.range_succ, h0, h1]

theorem cfgA_fire_year :
    (calculate_fire_projection cfgA).fire_year = Option.some 1 := by
  rw [projection_fire_year, cfgA_fire_achieved]
  simp [indexOfTrue]

/-! ### Claims -/

/-- C1: for every config with horizon `N ≥ 0` the projection produces
exactly `N + 1` points at offsets `0..N` (the loop is never
short-circuited), with savings at offset 0 equal to the starting
savings, and for every offset `y` from 1 to `N`,
`savings(y) = savings(y-1) * (1 + investmentReturn/100) + annualContribution`
where the annual contribution is the constant
`monthlyIncome * 12 * (savingsRate/100)`. -/
theorem c1_projection_recurrence (c : Config) :
    (calculate_fire_projection c).year = List.range (years_until_retirement c + 1) ∧
    (calculate_fire_projection c).savings.length = years_until_retirement c + 1 ∧
    (calculate_fire_projection c).annual_expenses.length = years_until_retirement c + 1 ∧
    (calculate_fire_projection c).fire_numbers.length = years_until_retirement c + 1 ∧
    (calculate_fire_projection c).fire_achieved.length = years_until_retirement c + 1 ∧
    (calculate_fire_projection c).savings.getD 0 0 = c.current_savings ∧
    ∀ y : ℕ, 1 ≤ y → y ≤ years_until_retirement c →
      (calculate_fire_projection c).savings.getD y 0 =
        (calculate_fire_projection c).savings.getD (y - 1) 0 *
          (1 + c.annual_investment_return / 100) +
        c.monthly_income * 12 * (c.savings_rate / 100) := by
  refine ⟨projection_year c, ?_, ?_, ?_, ?_, ?_, ?_⟩
  · rw [projection_savings]; simp
  · rw [projection_expenses]; simp
  · rw [projection_fire_numbers]; simp
  · rw [projection_fire_achieved]; simp
  · rw [projection_savings, getD_map_range _ _ (Nat.succ_pos _)]
    rfl
  · intro y h1 h2
    obtain ⟨j, rfl⟩ : ∃ j, y = j + 1 := ⟨y - 1, by omega⟩
    rw [projection_savings, getD_map_range _ _ (by omega),
      getD_map_range _ _ (by omega)]
    show savingsAt c (j + 1) = savingsAt c (j + 1 - 1) * _ + _
    rw [savingsAt, Nat.add_sub_cancel, annual_saving]
    ring

theorem c1_projection_recurrence_witness :
    (1 : ℕ) ≤ 1 ∧ 1 ≤ years_until_retirement cfgA ∧
    (calculate_fire_projection cfgA).savings.getD 1 0 =
      (calculate_fire_projection cfgA).savings.getD 0 0 *
        (1 + cfgA.annual_investment_return / 100) +
      cfgA.monthly_income * 12 * (cfgA.savings_rate / 100) :=
  ⟨le_refl 1, by decide,
    (c1_projection_recurrence cfgA).2.2.2.2.2.2 1 (by decide) (by decide)⟩

/-- C2: `calculate_future_expenses(t)` is exactly
`Σ ai * (1 + ri/100)^t` over the six categories, each compounded by its
own rate independently; at `t = 0` it equals `total_annual_cost`
exactly; and on a config with non-uniform category rates it differs
from `total_annual_cost * (1 + weighted_inflation/100)^t` (here at
`t = 2`): the blended rate is never substituted into the compounding. -/
theorem c2_independent_compounding :
    (∀ (c : Config) (t : ℕ),
      calculate_future_expenses c t = futureAnnualCost (categories c) t) ∧
    (∀ c : Config, calculate_future_expenses c 0 = total_annual_cost c) ∧
    cfg2.expense_inflation ≠ cfg2.misc_inflation ∧
    calculate_future_expenses cfg2 2 ≠
      total_annual_cost cfg2 * (1 + weighted_inflation cfg2 / 100) ^ 2 := by
  refine ⟨?_, future_expenses_zero, by norm_num [cfg2], ?_⟩
  · intro c t
    simp [calculate_future_expenses, futureAnnualCost, categories]
    ring
  · norm_num [calculate_future_expenses, total_annual_cost, weighted_inflation,
      annual_expense, annual_trips, car_annual, gadget_annual, dependent_annual,
      misc_annual, cfg2]

/-- C3 as stated is false on the code: the offset-0 `fire_achieved`
flag is hard-initialized to `False` (line 166), so on `cfg3` — a
zero-horizon config whose starting savings exceed the offset-0 FIRE
number — the flag is still `false` and `fire_year` is absent. -/
theorem c3_counterexample :
    years_until_retirement cfg3 = 0 ∧
    calculate_fire_number (total_annual_cost cfg3) cfg3.swr ≤ cfg3.current_savings ∧
    ¬((calculate_fire_projection cfg3).fire_achieved.getD 0 true = true ↔
      calculate_fire_number (total_annual_cost cfg3) cfg3.swr ≤ cfg3.current_savings) ∧
    (calculate_fire_projection cfg3).fire_year = Option.none := by
  have hN : years_until_retirement cfg3 = 0 := rfl
  have hnum : calculate_fire_number (total_annual_cost cfg3) cfg3.swr ≤
      cfg3.current_savings := by
    norm_num [calculate_fire_number, total_annual_cost, annual_expense,
      annual_trips, car_annual, gadget_annual, dependent_annual, misc_annual, cfg3]
  have hfa : (calculate_fire_projection cfg3).fire_achieved = [false] := by
    rw [projection_fire_achieved, hN]
    have h0 : fireAchievedAt cfg3 0 = false := rfl
    simp [List.range_succ, h0]
  refine ⟨hN, hnum, ?_, ?_⟩
  · rw [hfa]
    intro h
    have h2 := h.mpr hnum
    simp at h2
  · rw [projection_fire_year, hfa]
    simp [indexOfTrue]

/-- C3 amended: the offset-0 point has `projectedSavings = startingSavings`
and `requiredFireNumber = fireNumber(totalAnnualCost, swr)`, but its
`fireAchieved` flag is always `false` regardless of savings; hence for
horizon `N = 0` the one-point series always has `fireYearOffset`
absent, even when `startingSavings ≥ fireNumber(currentExpenses, swr)`. -/
theorem c3_amended (c : Config) :
    (calculate_fire_projection c).savings.getD 0 0 = c.current_savings ∧
    (calculate_fire_projection c).fire_numbers.getD 0 0 =
      calculate_fire_number (total_annual_cost c) c.swr ∧
    (calculate_fire_projection c).fire_achieved.getD 0 true = false ∧
    (years_until_retirement c = 0 →
      (calculate_fire_projection c).fire_year = Option.none) := by
  refine ⟨?_, ?_, ?_, ?_⟩
  · rw [projection_savings, getD_map_range _ _ (Nat.succ_pos _)]; rfl
  · rw [projection_fire_numbers, getD_map_range _ _ (Nat.succ_pos _)]; rfl
  · rw [projection_fire_achieved, getD_map_range _ _ (Nat.succ_pos _)]; rfl
  · intro hN
    have hfa : (calculate_fire_projection c).fire_achieved = [false] := by
      rw [projection_fire_achieved, hN]
      have h0 : fireAchievedAt c 0 = false := rfl
      simp [List.range_succ, h0]
    rw [projection_fire_year, hfa]
    simp [indexOfTrue]

theorem c3_amended_witness :
    years_until_retirement cfg3 = 0 ∧
    (calculate_fire_projection cfg3).fire_year = Option.none :=
  ⟨rfl, (c3_amended cfg3).2.2.2 rfl⟩

/-- C4: `fire_year`, when present, is the minimum offset at which the
series' `fire_achieved` flag is true (every earlier offset's flag is
false), and it is absent exactly when no offset in the series has the
flag true. -/
theorem c4_fire_year_minimal (c : Config) :
    ((calculate_fire_projection c).fire_year = Option.none ↔
      true ∉ (calculate_fire_projection c).fire_achieved) ∧
    ∀ k, (calculate_fire_projection c).fire_year = Option.some k →
      (calculate_fire_projection c).fire_achieved[k]? = Option.some true ∧
      ∀ j, j < k →
        (calculate_fire_projection c).fire_achieved[j]? = Option.some false := by
  constructor
  · rw [projection_fire_year]
    exact indexOfTrue_eq_none_iff _
  · intro k hk
    rw [projection_fire_year] at hk
    exact indexOfTrue_spec hk

theorem c4_fire_year_minimal_witness :
    (calculate_fire_projection cfgA).fire_year = Option.some 1 ∧
    (calculate_fire_projection cfgA).fire_achieved[1]? = Option.some true ∧
    (calculate_fire_projection cfgA).fire_achieved[0]? = Option.some false :=
  ⟨cfgA_fire_year,
    ((c4_fire_year_minimal cfgA).2 1 cfgA_fire_year).1,
    ((c4_fire_year_minimal cfgA).2 1 cfgA_fire_year).2 0 Nat.zero_lt_one⟩

/-- C5: the aggregator's `weighted_inflation` is `Σ(ai*ri) / Σai`
whenever `Σai > 0` and the fixed default 4 when `Σai = 0`;
`total_annual_cost` is `Σai` with each category annualized as
monthly*12, lump-sum/frequency-years, or count*unit-cost. -/
theorem c5_aggregator (c : Config) :
    total_annual_cost c = ((categories c).map Prod.fst).sum ∧
    annual_expense c = c.monthly_expense * 12 ∧
    annual_trips c = c.trips_per_year * c.trip_budget ∧
    car_annual c = c.car_cost / c.car_upgrade_years ∧
    gadget_annual c = c.gadget_cost / c.gadget_upgrade_years ∧
    dependent_annual c = c.num_dependents * c.dependent_cost ∧
    misc_annual c = c.misc_monthly * 12 ∧
    (0 < ((categories c).map Prod.fst).sum →
      weighted_inflation c =
        ((categories c).map (fun p => p.1 * p.2)).sum /
          ((categories c).map Prod.fst).sum) ∧
    (((categories c).map Prod.fst).sum = 0 → weighted_inflation c = 4) := by
  have htot : total_annual_cost c = ((categories c).map Prod.fst).sum := by
    simp [categories, total_annual_cost]
    ring
  refine ⟨htot, rfl, rfl, rfl, rfl, rfl, rfl, ?_, ?_⟩
  · intro hpos
    rw [weighted_inflation, if_pos (htot ▸ hpos), htot]
    congr 1
    simp [categories]
    ring
  · intro hzero
    rw [weighted_inflation, if_neg]
    rw [htot, hzero]
    exact lt_irrefl 0

theorem c5_aggregator_witness :
    0 < ((categories cfgA).map Prod.fst).sum ∧
    weighted_inflation cfgA =
      ((categories cfgA).map (fun p => p.1 * p.2)).sum /
        ((categories cfgA).map Prod.fst).sum := by
  have hpos : 0 < ((categories cfgA).map Prod.fst).sum := by
    norm_num [categories, annual_expense, annual_trips, car_annual,
      gadget_annual, dependent_annual, misc_annual, cfgA]
  exact ⟨hpos, (c5_aggregator cfgA).2.2.2.2.2.2.2.1 hpos⟩

/-- C6: whenever every category inflation rate is non-negative (the
raw amounts being non-negative and the safe-withdrawal rate positive,
as the sidebar bounds guarantee), the series of required FIRE numbers
over offsets `0..N` is monotonically non-decreasing. -/
theorem c6_fire_number_monotone (c : Config)
    (hme : 0 ≤ c.monthly_expense) (htp : 0 ≤ c.trips_per_year)
    (htb : 0 ≤ c.trip_budget) (hcc : 0 ≤ c.car_cost)
    (hcy : 0 ≤ c.car_upgrade_years) (hgc : 0 ≤ c.gadget_cost)
    (hgy : 0 ≤ c.gadget_upgrade_years) (hnd : 0 ≤ c.num_dependents)
    (hdc : 0 ≤ c.dependent_cost) (hmm : 0 ≤ c.misc_monthly)
    (hr1 : 0 ≤ c.expense_inflation) (hr2 : 0 ≤ c.trip_inflation)
    (hr3 : 0 ≤ c.car_inflation) (hr4 : 0 ≤ c.gadget_inflation)
    (hr5 : 0 ≤ c.dependent_inflation) (hr6 : 0 ≤ c.misc_inflation)
    (hswr : 0 < c.swr) :
    ∀ i j, i ≤ j → j < (calculate_fire_projection c).fire_numbers.length →
      (calculate_fire_projection c).fire_numbers.getD i 0 ≤
        (calculate_fire_projection c).fire_numbers.getD j 0 := by
  have ha1 : 0 ≤ annual_expense c := by
    rw [annual_expense]; positivity
  have ha2 : 0 ≤ annual_trips c := mul_nonneg htp htb
  have ha3 : 0 ≤ car_annual c := div_nonneg hcc hcy
  have ha4 : 0 ≤ gadget_annual c := div_nonneg hgc hgy
  have ha5 : 0 ≤ dependent_annual c := mul_nonneg hnd hdc
  have ha6 : 0 ≤ misc_annual c := by
    rw [misc_annual]; positivity
  have hbase : ∀ r : ℚ, 0 ≤ r → (1 : ℚ) ≤ 1 + r / 100 := by
    intro r hr
    have : (0 : ℚ) ≤ r / 100 := by positivity
    linarith
  have hterm : ∀ (a r : ℚ) (t : ℕ), 0 ≤ a → 0 ≤ r →
      a * (1 + r / 100) ^ t ≤ a * (1 + r / 100) ^ (t + 1) := by
    intro a r t ha hr
    exact mul_le_mul_of_nonneg_left
      (pow_le_pow_right₀ (hbase r hr) (Nat.le_succ t)) ha
  have hfut : ∀ t, calculate_future_expenses c t ≤
      calculate_future_expenses c (t + 1) := by
    intro t
    rw [calculate_future_expenses, calculate_future_expenses]
    have g1 := hterm _ _ t ha1 hr1
    have g2 := hterm _ _ t ha2 hr2
    have g3 := hterm _ _ t ha3 hr3
    have g4 := hterm _ _ t ha4 hr4
    have g5 := hterm _ _ t ha5 hr5
    have g6 := hterm _ _ t ha6 hr6
    linarith
  have hexp : ∀ t, expenseAt c t ≤ expenseAt c (t + 1) := by
    intro t
    cases t with
    | zero =>
      show total_annual_cost c ≤ calculate_future_expenses c 1
      rw [← future_expenses_zero c]
      exact hfut 0
    | succ t =>
      exact hfut (t + 1)
  have hmono : Monotone (fireNumberAt c) := by
    apply monotone_nat_of_le_succ
    intro t
    rw [fireNumberAt, fireNumberAt, calculate_fire_number, calculate_fire_number]
    have h100 : (0 : ℚ) ≤ 100 / c.swr := by positivity
    exact mul_le_mul_of_nonneg_right (hexp t) h100
  intro i j hij hj
  rw [projection_fire_numbers] at hj ⊢
  rw [List.length_map, List.length_range] at hj
  rw [getD_map_range _ _ (by omega), getD_map_range _ _ (by omega)]
  exact hmono hij

theorem c6_fire_number_monotone_witness :
    (0 : ℚ) < cfgA.swr ∧
    (calculate_fire_projection cfgA).fire_numbers.getD 0 0 ≤
      (calculate_fire_projection cfgA).fire_numbers.getD 1 0 := by
  have hlen : (calculate_fire_projection cfgA).fire_numbers.length = 2 := by
    rw [projection_fire_numbers, cfgA_years]
    simp
  refine ⟨by norm_num [cfgA], ?_⟩
  exact c6_fire_number_monotone cfgA
    (by norm_num [cfgA]) (by norm_num [cfgA]) (by norm_num [cfgA])
    (by norm_num [cfgA]) (by norm_num [cfgA]) (by norm_num [cfgA])
    (by norm_num [cfgA]) (by norm_num [cfgA]) (by norm_num [cfgA])
    (by norm_num [cfgA]) (by norm_num [cfgA]) (by norm_num [cfgA])
    (by norm_num [cfgA]) (by norm_num [cfgA]) (by norm_num [cfgA])
    (by norm_num [cfgA]) (by norm_num [cfgA])
    0 1 (Nat.zero_le 1) (by rw [hlen]; omega)

/-- C7: with `swrPercent = 0` the fire-number computation (line 100)
fails with the invalid-parameter error — Python's `ZeroDivisionError`
from `100 / swr` — and, since line 100 runs before the projection
(line 197), the script aborts with no projection and no numeric output
at all (hence no NaN or Infinity in any output value). -/
theorem c7_swr_zero_fails (c : Config) (h : c.swr = 0) :
    calculate_fire_number_checked (retirement_annual_expenses c) c.swr =
      Except.error CalcError.invalidParameter ∧
    script_run c = Except.error CalcError.invalidParameter := by
  have h1 : calculate_fire_number_checked (retirement_annual_expenses c) c.swr =
      Except.error CalcError.invalidParameter := by
    rw [calculate_fire_number_checked, if_pos h]
  exact ⟨h1, by simp only [script_run, h1]; rfl⟩

theorem c7_swr_zero_fails_witness :
    cfg7.swr = 0 ∧ script_run cfg7 = Except.error CalcError.invalidParameter :=
  ⟨rfl, (c7_swr_zero_fails cfg7 rfl).2⟩

/-- C8: the `fire_achieved` flag at offset 0 of the produced series is
always `false` (line 166 hard-initializes it), regardless of whether
the starting savings exceed the offset-0 FIRE number; consequently
`fire_year`, when present, is at least 1. -/
theorem c8_offset_zero_never_achieved (c : Config) :
    (calculate_fire_projection c).fire_achieved.getD 0 true = false ∧
    ∀ k, (calculate_fire_projection c).fire_year = Option.some k → 1 ≤ k := by
  have h0 : (calculate_fire_projection c).fire_achieved[0]? =
      Option.some false := by
    rw [projection_fire_achieved, List.getElem?_map,
      List.getElem?_range (Nat.succ_pos _)]
    rfl
  constructor
  · rw [List.getD_eq_getElem?_getD, h0]
    rfl
  · intro k hk
    rw [projection_fire_year] at hk
    have hspec := indexOfTrue_spec hk
    by_contra hlt
    have hk0 : k = 0 := by omega
    subst hk0
    rw [h0] at hspec
    exact absurd hspec.1 (by simp)

theorem c8_offset_zero_never_achieved_witness :
    (calculate_fire_projection cfgA).fire_year = Option.some 1 ∧ 1 ≤ 1 :=
  ⟨cfgA_fire_year, (c8_offset_zero_never_achieved cfgA).2 1 cfgA_fire_year⟩

/-- C9: the headline FIRE number (line 100) is
`calculate_fire_number(calculate_future_expenses(N), swr)` — expenses
compounded to the retirement year, not current expenses — and it equals
the last element (offset `N`) of the projection's `fire_numbers`
series. -/
theorem c9_headline_is_last_fire_number (c : Config) :
    fire_number c = calculate_fire_number
      (calculate_future_expenses c (years_until_retirement c)) c.swr ∧
    fire_number c = (calculate_fire_projection c).fire_numbers.getLastD 0 := by
  refine ⟨rfl, ?_⟩
  rw [projection_fire_numbers, getLastD_map_range]
  cases hN : years_until_retirement c with
  | zero =>
    show fire_number c = fireNumberAt c 0
    rw [fire_number, fireNumberAt, retirement_annual_expenses, hN]
    show calculate_fire_number (calculate_future_expenses c 0) c.swr = _
    rw [future_expenses_zero]
    rfl
  | succ n =>
    show fire_number c = fireNumberAt c (n + 1)
    rw [fire_number, fireNumberAt, retirement_annual_expenses, hN]
    rfl

/-- C10: the years-to-save metric (line 306) is total: when
`annual_saving ≤ 0` it is 0 and the division is never evaluated, and
when `annual_saving > 0` the denominator
`annual_saving * (1 + annual_investment_return/100)` is nonzero (the
sidebar keeps the return rate ≥ 1, line 27), so the division-error
branch is unreachable. -/
theorem c10_years_to_save_total (c : Config)
    (h : 1 ≤ c.annual_investment_return) :
    (annual_saving_metric c ≤ 0 → years_to_save c = 0) ∧
    years_to_save_checked c = Except.ok (years_to_save c) := by
  constructor
  · intro hle
    rw [years_to_save, if_pos hle]
  · by_cases hle : annual_saving_metric c ≤ 0
    · rw [years_to_save_checked, if_pos hle, years_to_save, if_pos hle]
    · have hpos : 0 < annual_saving_metric c := lt_of_not_le hle
      have hret : (0 : ℚ) < 1 + c.annual_investment_return / 100 := by
        have : (0 : ℚ) ≤ c.annual_investment_return / 100 := by
          have h0 : (0 : ℚ) ≤ c.annual_investment_return :=
            le_trans zero_le_one h
          positivity
        linarith
      have hden : annual_saving_metric c *
          (1 + c.annual_investment_return / 100) ≠ 0 :=
        ne_of_gt (mul_pos hpos hret)
      rw [years_to_save_checked, if_neg hle, if_neg hden,
        years_to_save, if_neg hle]

theorem c10_years_to_save_total_witness :
    1 ≤ cfgA.annual_investment_return ∧
    years_to_save_checked cfgA = Except.ok (years_to_save cfgA) :=
  ⟨by norm_num [cfgA], (c10_years_to_save_total cfgA (by norm_num [cfgA])).2⟩

end Fire
